import Mathlib

/-!
Shallow embedding of the user-account domain core of the news-portal CMS
(`internal/domain/user/account/entity.go` and `value_object.go`, the later
string-id/disability-type variant that the specification targets).

Modelling conventions:
* Go strings are `List Char` (rune sequences); `len` is UTF-8 byte length
  (`goLen`); `strings.TrimSpace` is `trimSpace` over Go's `unicode.IsSpace`
  set; `strings.ToLower` is modelled on the ASCII range (`goToLower`) —
  the claims under study never depend on non-ASCII case folding.
* `time.Time` and `time.Duration` are `Int` instants/durations; each
  method takes the single `now` captured by its `time.Now()` call.
* Go's `string`-typed enums are closed inductives (the spec's design note
  sanctions this); the dynamic membership checks `validateAccountType` /
  `validateDisabilityType` therefore always pass on enum values.
* A pointer-receiver method returns `UserAccount × Option DomainErr`:
  the receiver after the call and the returned error (`none` = success).
  Each `return err` before any field write yields the untouched receiver,
  mirroring the Go control flow statement by statement.
-/

deriving instance DecidableEq for Except

namespace NewsPortal

/-- Go `unicode.IsSpace`: Latin-1 whitespace plus the White_Space
    code points above Latin-1. -/
def isGoSpace (c : Char) : Bool :=
  c.val == 9 || c.val == 10 || c.val == 11 || c.val == 12 || c.val == 13 ||
  c.val == 32 || c.val == 0x85 || c.val == 0xA0 ||
  c.val == 0x1680 || (0x2000 ≤ c.val && c.val ≤ 0x200A) ||
  c.val == 0x2028 || c.val == 0x2029 || c.val == 0x202F ||
  c.val == 0x205F || c.val == 0x3000

/-- Go `strings.TrimSpace`: drop leading and trailing whitespace runes. -/
def trimSpace (s : List Char) : List Char :=
  ((s.dropWhile isGoSpace).reverse.dropWhile isGoSpace).reverse

/-- Go `strings.TrimSpace(s) == ""`. -/
def isBlank (s : List Char) : Bool :=
  (trimSpace s).isEmpty

/-- UTF-8 byte width of one rune. -/
def utf8Len (c : Char) : Nat :=
  if c.val < 0x80 then 1
  else if c.val < 0x800 then 2
  else if c.val < 0x10000 then 3
  else 4

/-- Go `len` of a string: total UTF-8 byte length. -/
def goLen (s : List Char) : Nat :=
  (s.map utf8Len).sum

/-- Go `strings.ToLower`, restricted to the ASCII letters (the only case
    mapping the email/username claims can observe). -/
def goToLower (s : List Char) : List Char :=
  s.map fun c => if 65 ≤ c.val && c.val ≤ 90 then Char.ofNat (c.toNat + 32) else c

/-- One rune of the `usernameRegex` class `[a-zA-Z0-9_]`. -/
def usernameChar (c : Char) : Bool :=
  ('a' ≤ c && c ≤ 'z') || ('A' ≤ c && c ≤ 'Z') || ('0' ≤ c && c ≤ '9') || c == '_'

/-- Go `usernameRegex = ^[a-zA-Z0-9_]+$`: nonempty, every rune in the class. -/
def usernameMatch (s : List Char) : Bool :=
  !s.isEmpty && s.all usernameChar

/-- ASCII letter (the `[a-zA-Z]` class). -/
def alphaChar (c : Char) : Bool :=
  ('a' ≤ c && c ≤ 'z') || ('A' ≤ c && c ≤ 'Z')

/-- ASCII letter or digit. -/
def alnumChar (c : Char) : Bool :=
  alphaChar c || ('0' ≤ c && c ≤ '9')

/-- One rune of the email local-part class `[a-zA-Z0-9._%+-]`. -/
def emailLocalChar (c : Char) : Bool :=
  alnumChar c || c == '.' || c == '_' || c == '%' || c == '+' || c == '-'

/-- One rune of the email domain class `[a-zA-Z0-9.-]`. -/
def emailDomainChar (c : Char) : Bool :=
  alnumChar c || c == '.' || c == '-'

/-- The domain part `[a-zA-Z0-9.-]+\.[a-zA-Z]\x7b2,\x7d$` of `emailRegex`.
    An anchored match exists exactly when splitting at the LAST dot gives a
    nonempty class-valid head and an all-letter tail of length ≥ 2 (any
    earlier dot would leave a dot inside the letters-only tail). -/
def emailDomainMatch (domain : List Char) : Bool :=
  let r := domain.reverse
  let tldR := r.takeWhile fun c => c ≠ '.'
  match r.drop tldR.length with
  | '.' :: dR => 2 ≤ tldR.length && tldR.all alphaChar && !dR.isEmpty && dR.all emailDomainChar
  | _ => false

/-- Go `emailRegex = ^[a-zA-Z0-9._%+-]+@[a-zA-Z0-9.-]+\.[a-zA-Z]\x7b2,\x7d$`.
    Neither character class contains `@`, so a match forces exactly one `@`. -/
def emailMatch (s : List Char) : Bool :=
  match s.splitOn '@' with
  | [localPart, domain] =>
      !localPart.isEmpty && localPart.all emailLocalChar && emailDomainMatch domain
  | _ => false

/-- The domain errors, one constructor per distinct `errors.New` message. -/
inductive DomainErr where
  | usernameTooShort
  | usernameTooLong
  | usernameInvalidChars
  | invalidEmail
  | idEmpty
  | passwordHashEmpty
  | invalidAccountType
  | registeredByEmpty
  | notPendingVerification
  | alreadyVerified
  | verifierIDEmpty
  | selfVerifyNotAllowed
  | notDisabled
  | activatorIDEmpty
  | cannotDisableDeleted
  | cannotDisableUnverified
  | alreadySameDisabilityType
  | disablerIDEmpty
  | reasonEmpty
  | invalidDisabilityType
  | notDisabledCannotReactivate
  | reactivatorIDEmpty
  | alreadyDeleted
  | deleterIDEmpty
  | sameUsername
  | sameEmail
  | sameType
  | ipEmpty
  | invalidMaxAttempts
  deriving DecidableEq, Repr

/-- Go `Username` value object. -/
structure Username where
  value : List Char
  deriving DecidableEq, Repr

/-- Go `NewUsername`: trim, then length and charset checks. -/
def NewUsername (value : List Char) : Except DomainErr Username :=
  let v := trimSpace value
  if goLen v < 3 then .error .usernameTooShort
  else if 30 < goLen v then .error .usernameTooLong
  else if !usernameMatch v then .error .usernameInvalidChars
  else .ok ⟨v⟩

/-- Go `Username.Value()`. -/
def Username.Value (u : Username) : List Char := u.value

/-- Go `Username.Equals`: value-based equality. -/
def Username.Equals (u other : Username) : Bool := u.value == other.value

/-- Go `Email` value object. -/
structure Email where
  value : List Char
  deriving DecidableEq, Repr

/-- Go `NewEmail`: lower-case, trim, then the regex check. -/
def NewEmail (value : List Char) : Except DomainErr Email :=
  let v := trimSpace (goToLower value)
  if !emailMatch v then .error .invalidEmail
  else .ok ⟨v⟩

/-- Go `Email.Value()`. -/
def Email.Value (e : Email) : List Char := e.value

/-- Go `Email.Equals`: value-based equality. -/
def Email.Equals (e other : Email) : Bool := e.value == other.value

/-- Go `PasswordHash` value object (opaque stored hash). -/
structure PasswordHash where
  value : List Char
  deriving DecidableEq, Repr

/-- Go `NewPasswordHash`: wraps the already-encoded value unchecked. -/
def NewPasswordHash (value : List Char) : PasswordHash := ⟨value⟩

/-- Go `PasswordHash.Value()`. -/
def PasswordHash.Value (h : PasswordHash) : List Char := h.value

/-- Go `UserAccountStatus`. -/
inductive UserAccountStatus where
  | pendingVerification
  | active
  | disabled
  | deleted
  deriving DecidableEq, Repr

/-- Go `DisabilityType`. -/
inductive DisabilityType where
  | inactive
  | suspended
  | blocked
  | manual
  | expired
  | violation
  deriving DecidableEq, Repr

/-- Go `UserAccountType`. -/
inductive UserAccountType where
  | internal
  | external
  | membership
  | partner
  | developer
  deriving DecidableEq, Repr

/-- The `SelfRegistration = "self"` sentinel. -/
def SelfRegistration : List Char := ['s', 'e', 'l', 'f']

/-- Go `validateAccountType`: the Go membership-map check lists every
    constructor, so on the closed enum it always passes. -/
def validateAccountType (_ : UserAccountType) : Option DomainErr := none

/-- Go `validateDisabilityType`: likewise always passes on the closed enum. -/
def validateDisabilityType (_ : DisabilityType) : Option DomainErr := none

/-- The `UserAccount` aggregate root; field names follow the Go struct. -/
structure UserAccount where
  id : List Char
  username : Username
  email : Email
  passwordHash : PasswordHash
  status : UserAccountStatus
  type : UserAccountType
  registeredBy : Option (List Char)
  disabilityType : Option DisabilityType
  isVerified : Bool
  verifiedBy : Option (List Char)
  verifiedAt : Option Int
  issuedReason : Option (List Char)
  lastActionBy : Option (List Char)
  lastLoginAt : Option Int
  lastLoginIP : Option (List Char)
  failedLoginAttempts : Int
  lastFailedLoginAttempt : Option Int
  lastFailedLoginIP : Option (List Char)
  lockedUntil : Option Int
  createdAt : Int
  updatedAt : Int
  deletedAt : Option Int
  deletedBy : Option (List Char)
  deriving DecidableEq, Repr

/-- Go `NewUserAccountWithHash` (production constructor, pre-hashed password).
    `now` is the `time.Now()` captured inside the constructor. -/
def NewUserAccountWithHash (id username email hashedPassword : List Char)
    (accountType : UserAccountType) (registeredBy : List Char) (now : Int) :
    Except DomainErr UserAccount :=
  if isBlank id then .error .idEmpty
  else match NewUsername username with
  | .error e => .error e
  | .ok usernameObj =>
    match NewEmail email with
    | .error e => .error e
    | .ok emailObj =>
      if isBlank hashedPassword then .error .passwordHashEmpty
      else match validateAccountType accountType with
      | some e => .error e
      | none =>
        if isBlank registeredBy then .error .registeredByEmpty
        else .ok
          { id := id
            username := usernameObj
            email := emailObj
            passwordHash := NewPasswordHash hashedPassword
            status := .pendingVerification
            type := accountType
            registeredBy := some registeredBy
            disabilityType := none
            isVerified := false
            verifiedBy := none
            verifiedAt := none
            issuedReason := none
            lastActionBy := none
            lastLoginAt := none
            lastLoginIP := none
            failedLoginAttempts := 0
            lastFailedLoginAttempt := none
            lastFailedLoginIP := none
            lockedUntil := none
            createdAt := now
            updatedAt := now
            deletedAt := none
            deletedBy := none }

/-- Go `NewUserAccountForSelfRegistration`. -/
def NewUserAccountForSelfRegistration (id username email hashedPassword : List Char)
    (now : Int) : Except DomainErr UserAccount :=
  NewUserAccountWithHash id username email hashedPassword .membership SelfRegistration now

/-- Go `UserAccount.Verify`. -/
def UserAccount.Verify (ua : UserAccount) (verifierID : List Char) (now : Int) :
    UserAccount × Option DomainErr :=
  if ua.status ≠ .pendingVerification then (ua, some .notPendingVerification)
  else if ua.isVerified then (ua, some .alreadyVerified)
  else if isBlank verifierID then (ua, some .verifierIDEmpty)
  else
    ({ ua with
        isVerified := true
        verifiedBy := some verifierID
        verifiedAt := some now
        status := .active
        updatedAt := now
        lastActionBy := some verifierID }, none)

/-- Go `UserAccount.SelfVerify`. -/
def UserAccount.SelfVerify (ua : UserAccount) (now : Int) :
    UserAccount × Option DomainErr :=
  if ua.status ≠ .pendingVerification then (ua, some .notPendingVerification)
  else if ua.isVerified then (ua, some .alreadyVerified)
  else if ua.type ≠ .membership then (ua, some .selfVerifyNotAllowed)
  else
    ({ ua with
        isVerified := true
        verifiedBy := some SelfRegistration
        verifiedAt := some now
        status := .active
        updatedAt := now
        lastActionBy := some SelfRegistration }, none)

/-- Go `UserAccount.Activate`. -/
def UserAccount.Activate (ua : UserAccount) (activatorID : List Char) (now : Int) :
    UserAccount × Option DomainErr :=
  if ua.status ≠ .disabled then (ua, some .notDisabled)
  else if isBlank activatorID then (ua, some .activatorIDEmpty)
  else
    ({ ua with
        status := .active
        disabilityType := none
        issuedReason := none
        updatedAt := now
        lastActionBy := some activatorID }, none)

/-- Go `UserAccount.Disable`. -/
def UserAccount.Disable (ua : UserAccount) (disablerID : List Char)
    (disabilityType : DisabilityType) (reason : List Char) (now : Int) :
    UserAccount × Option DomainErr :=
  if ua.status = .deleted then (ua, some .cannotDisableDeleted)
  else if ua.status = .pendingVerification then (ua, some .cannotDisableUnverified)
  else if ua.status = .disabled ∧ ua.disabilityType = some disabilityType then
    (ua, some .alreadySameDisabilityType)
  else if isBlank disablerID then (ua, some .disablerIDEmpty)
  else if isBlank reason then (ua, some .reasonEmpty)
  else match validateDisabilityType disabilityType with
  | some e => (ua, some e)
  | none =>
    ({ ua with
        status := .disabled
        disabilityType := some disabilityType
        issuedReason := some reason
        updatedAt := now
        lastActionBy := some disablerID }, none)

/-- Go `UserAccount.SetInactive`. -/
def UserAccount.SetInactive (ua : UserAccount) (userID reason : List Char) (now : Int) :
    UserAccount × Option DomainErr :=
  ua.Disable userID .inactive reason now

/-- Go `UserAccount.Suspend`. -/
def UserAccount.Suspend (ua : UserAccount) (userID reason : List Char) (now : Int) :
    UserAccount × Option DomainErr :=
  ua.Disable userID .suspended reason now

/-- Go `UserAccount.Block`. -/
def UserAccount.Block (ua : UserAccount) (userID reason : List Char) (now : Int) :
    UserAccount × Option DomainErr :=
  ua.Disable userID .blocked reason now

/-- Go `UserAccount.SetExpired`. -/
def UserAccount.SetExpired (ua : UserAccount) (userID reason : List Char) (now : Int) :
    UserAccount × Option DomainErr :=
  ua.Disable userID .expired reason now

/-- Go `UserAccount.SetViolation`. -/
def UserAccount.SetViolation (ua : UserAccount) (userID reason : List Char) (now : Int) :
    UserAccount × Option DomainErr :=
  ua.Disable userID .violation reason now

/-- Go `UserAccount.DisableManually`. -/
def UserAccount.DisableManually (ua : UserAccount) (userID reason : List Char) (now : Int) :
    UserAccount × Option DomainErr :=
  ua.Disable userID .manual reason now

/-- Go `UserAccount.Reactivate`. -/
def UserAccount.Reactivate (ua : UserAccount) (reactivatorID : List Char) (now : Int) :
    UserAccount × Option DomainErr :=
  if ua.status ≠ .disabled then (ua, some .notDisabledCannotReactivate)
  else if isBlank reactivatorID then (ua, some .reactivatorIDEmpty)
  else
    ({ ua with
        status := .active
        disabilityType := none
        issuedReason := none
        updatedAt := now
        lastActionBy := some reactivatorID }, none)

/-- Go `UserAccount.Delete` (soft delete). Note: it does NOT clear
    `disabilityType` or `issuedReason`. -/
def UserAccount.Delete (ua : UserAccount) (deleterID : List Char) (now : Int) :
    UserAccount × Option DomainErr :=
  if ua.status = .deleted then (ua, some .alreadyDeleted)
  else if isBlank deleterID then (ua, some .deleterIDEmpty)
  else
    ({ ua with
        status := .deleted
        deletedAt := some now
        deletedBy := some deleterID
        updatedAt := now
        lastActionBy := some deleterID }, none)

/-- Go `UserAccount.UpdateUsername`. -/
def UserAccount.UpdateUsername (ua : UserAccount) (newUsername : List Char) (now : Int) :
    UserAccount × Option DomainErr :=
  match NewUsername newUsername with
  | .error e => (ua, some e)
  | .ok newUsernameObj =>
    if ua.username.Equals newUsernameObj then (ua, some .sameUsername)
    else ({ ua with username := newUsernameObj, updatedAt := now }, none)

/-- Go `UserAccount.UpdateEmail`. -/
def UserAccount.UpdateEmail (ua : UserAccount) (newEmail : List Char) (now : Int) :
    UserAccount × Option DomainErr :=
  match NewEmail newEmail with
  | .error e => (ua, some e)
  | .ok newEmailObj =>
    if ua.email.Equals newEmailObj then (ua, some .sameEmail)
    else ({ ua with email := newEmailObj, updatedAt := now }, none)

/-- Go `UserAccount.UpdatePasswordHash`. Note: no same-value check. -/
def UserAccount.UpdatePasswordHash (ua : UserAccount) (hashedPassword : List Char)
    (now : Int) : UserAccount × Option DomainErr :=
  if isBlank hashedPassword then (ua, some .passwordHashEmpty)
  else ({ ua with passwordHash := NewPasswordHash hashedPassword, updatedAt := now }, none)

/-- Go `UserAccount.UpdateType`. -/
def UserAccount.UpdateType (ua : UserAccount) (newType : UserAccountType) (now : Int) :
    UserAccount × Option DomainErr :=
  if ua.type = newType then (ua, some .sameType)
  else match validateAccountType newType with
  | some e => (ua, some e)
  | none => ({ ua with type := newType, updatedAt := now }, none)

/-- Go `UserAccount.RecordSuccessfulLogin`. -/
def UserAccount.RecordSuccessfulLogin (ua : UserAccount) (ipAddress : List Char)
    (now : Int) : UserAccount × Option DomainErr :=
  if isBlank ipAddress then (ua, some .ipEmpty)
  else
    ({ ua with
        lastLoginAt := some now
        lastLoginIP := some ipAddress
        failedLoginAttempts := 0
        lockedUntil := none
        updatedAt := now }, none)

/-- Go `UserAccount.RecordFailedLogin`. `maxAttempts` is a Go `int`,
    `lockDuration` a `time.Duration`; both are `Int` here. -/
def UserAccount.RecordFailedLogin (ua : UserAccount) (ipAddress : List Char)
    (maxAttempts lockDuration : Int) (now : Int) : UserAccount × Option DomainErr :=
  if isBlank ipAddress then (ua, some .ipEmpty)
  else if maxAttempts ≤ 0 then (ua, some .invalidMaxAttempts)
  else
    let f := ua.failedLoginAttempts + 1
    let base :=
      { ua with
          failedLoginAttempts := f
          lastFailedLoginAttempt := some now
          lastFailedLoginIP := some ipAddress
          updatedAt := now }
    if maxAttempts ≤ f then ({ base with lockedUntil := some (now + lockDuration) }, none)
    else (base, none)

/-- Go `UserAccount.UnlockAccount` (returns no error in Go). -/
def UserAccount.UnlockAccount (ua : UserAccount) (now : Int) : UserAccount :=
  { ua with
      failedLoginAttempts := 0
      lockedUntil := none
      updatedAt := now }

/-- Go `UserAccount.CanLogin`. Both `time.Now()` calls of the Go body happen
    within the same invocation and are modelled by the one `now`. -/
def UserAccount.CanLogin (ua : UserAccount) (now : Int) : Bool :=
  if ua.status ≠ .active ∨ ua.isVerified = false then false
  else if (match ua.lockedUntil with | some t => decide (now < t) | none => false) then false
  else true

/-- Go `UserAccount.IsLocked`. -/
def UserAccount.IsLocked (ua : UserAccount) (now : Int) : Bool :=
  match ua.lockedUntil with
  | some t => decide (now < t)
  | none => false

/-- One invocation of a business method of the aggregate, with its
    arguments (the `now` of the call is supplied separately). -/
inductive MethodCall where
  | verify (verifierID : List Char)
  | selfVerify
  | activate (activatorID : List Char)
  | disable (disablerID : List Char) (d : DisabilityType) (reason : List Char)
  | setInactive (userID reason : List Char)
  | suspend (userID reason : List Char)
  | block (userID reason : List Char)
  | setExpired (userID reason : List Char)
  | setViolation (userID reason : List Char)
  | disableManually (userID reason : List Char)
  | reactivate (reactivatorID : List Char)
  | delete (deleterID : List Char)
  | updateUsername (s : List Char)
  | updateEmail (s : List Char)
  | updatePasswordHash (s : List Char)
  | updateType (t : UserAccountType)
  | recordSuccessfulLogin (ip : List Char)
  | recordFailedLogin (ip : List Char) (maxAttempts lockDuration : Int)
  | unlockAccount
  deriving DecidableEq, Repr

/-- Dispatch one business-method call at time `now`: the receiver after the
    call together with the returned error. -/
def applyMethod (ua : UserAccount) (m : MethodCall) (now : Int) :
    UserAccount × Option DomainErr :=
  match m with
  | .verify v => ua.Verify v now
  | .selfVerify => ua.SelfVerify now
  | .activate a => ua.Activate a now
  | .disable a d r => ua.Disable a d r now
  | .setInactive a r => ua.SetInactive a r now
  | .suspend a r => ua.Suspend a r now
  | .block a r => ua.Block a r now
  | .setExpired a r => ua.SetExpired a r now
  | .setViolation a r => ua.SetViolation a r now
  | .disableManually a r => ua.DisableManually a r now
  | .reactivate a => ua.Reactivate a now
  | .delete a => ua.Delete a now
  | .updateUsername s => ua.UpdateUsername s now
  | .updateEmail s => ua.UpdateEmail s now
  | .updatePasswordHash s => ua.UpdatePasswordHash s now
  | .updateType t => ua.UpdateType t now
  | .recordSuccessfulLogin ip => ua.RecordSuccessfulLogin ip now
  | .recordFailedLogin ip n d => ua.RecordFailedLogin ip n d now
  | .unlockAccount => (ua.UnlockAccount now, none)

/-- Run a sequence of timestamped business-method calls, keeping the
    receiver state whether each call succeeds or fails. -/
def runCalls (ua : UserAccount) (calls : List (MethodCall × Int)) : UserAccount :=
  calls.foldl (fun a c => (applyMethod a c.1 c.2).1) ua

/-- Spec invariant 1: `status = Disabled ⇔ disabilityType is present`. -/
def statusDisabilityInv (ua : UserAccount) : Prop :=
  ua.status = .disabled ↔ ua.disabilityType.isSome = true

instance (ua : UserAccount) : Decidable (statusDisabilityInv ua) := by
  unfold statusDisabilityInv; infer_instance

/-- A freshly registered account (the successful result of
    `NewUserAccountWithHash` on the sample inputs at time 0). -/
def sampleAccount : UserAccount where
  id := "id1".toList
  username := ⟨"user_1".toList⟩
  email := ⟨"user@example.com".toList⟩
  passwordHash := ⟨"hash1".toList⟩
  status := .pendingVerification
  type := .internal
  registeredBy := some "admin".toList
  disabilityType := none
  isVerified := false
  verifiedBy := none
  verifiedAt := none
  issuedReason := none
  lastActionBy := none
  lastLoginAt := none
  lastLoginIP := none
  failedLoginAttempts := 0
  lastFailedLoginAttempt := none
  lastFailedLoginIP := none
  lockedUntil := none
  createdAt := 0
  updatedAt := 0
  deletedAt := none
  deletedBy := none

/-- A verified, active sample account. -/
def activeAccount : UserAccount :=
  { sampleAccount with status := .active, isVerified := true }

/-- A disabled (suspended) sample account. -/
def disabledAccount : UserAccount :=
  { activeAccount with
      status := .disabled
      disabilityType := some .suspended
      issuedReason := some "policy".toList }

/-- A soft-deleted sample account. -/
def deletedAccount : UserAccount :=
  { activeAccount with status := .deleted }

/-- The account reached from `sampleAccount` by `Verify` then `Suspend`:
    a reachable disabled account. -/
def reachableDisabled : UserAccount :=
  runCalls sampleAccount
    [(.verify "boss".toList, 1), (.suspend "boss".toList "policy".toList, 2)]

/- ------------------------------------------------------------------ -/
/- Theorems.                                                          -/
/- ------------------------------------------------------------------ -/

/-- Every business method either returns its receiver untouched or
    returns no error: the shared case analysis behind the atomicity and
    invariant claims. -/
theorem applyMethod_unchanged_or_ok (ua : UserAccount) (m : MethodCall) (now : Int) :
    (applyMethod ua m now).1 = ua ∨ (applyMethod ua m now).2 = none := by
  cases m <;>
    simp only [applyMethod, UserAccount.Verify, UserAccount.SelfVerify, UserAccount.Activate,
      UserAccount.Disable, UserAccount.SetInactive, UserAccount.Suspend, UserAccount.Block,
      UserAccount.SetExpired, UserAccount.SetViolation, UserAccount.DisableManually,
      UserAccount.Reactivate, UserAccount.Delete, UserAccount.UpdateUsername,
      UserAccount.UpdateEmail, UserAccount.UpdatePasswordHash, UserAccount.UpdateType,
      UserAccount.RecordSuccessfulLogin, UserAccount.RecordFailedLogin,
      UserAccount.UnlockAccount, validateAccountType, validateDisabilityType] <;>
    (repeat' split) <;> simp

/-- No business method writes `id`, `createdAt`, or `registeredBy`. -/
theorem applyMethod_identity_frame (ua : UserAccount) (m : MethodCall) (now : Int) :
    (applyMethod ua m now).1.id = ua.id ∧
    (applyMethod ua m now).1.createdAt = ua.createdAt ∧
    (applyMethod ua m now).1.registeredBy = ua.registeredBy := by
  cases m <;>
    simp only [applyMethod, UserAccount.Verify, UserAccount.SelfVerify, UserAccount.Activate,
      UserAccount.Disable, UserAccount.SetInactive, UserAccount.Suspend, UserAccount.Block,
      UserAccount.SetExpired, UserAccount.SetViolation, UserAccount.DisableManually,
      UserAccount.Reactivate, UserAccount.Delete, UserAccount.UpdateUsername,
      UserAccount.UpdateEmail, UserAccount.UpdatePasswordHash, UserAccount.UpdateType,
      UserAccount.RecordSuccessfulLogin, UserAccount.RecordFailedLogin,
      UserAccount.UnlockAccount, validateAccountType, validateDisabilityType] <;>
    (repeat' split) <;> simp

/-- Go `id`, `createdAt`, `registeredBy` survive any call sequence. -/
theorem runCalls_identity_frame (calls : List (MethodCall × Int)) (ua : UserAccount) :
    (runCalls ua calls).id = ua.id ∧
    (runCalls ua calls).createdAt = ua.createdAt ∧
    (runCalls ua calls).registeredBy = ua.registeredBy := by
  induction calls generalizing ua with
  | nil => simp [runCalls]
  | cons c cs ih =>
      have hstep := applyMethod_identity_frame ua c.1 c.2
      have htail := ih (applyMethod ua c.1 c.2).1
      simp only [runCalls, List.foldl_cons] at htail ⊢
      exact ⟨htail.1.trans hstep.1, htail.2.1.trans hstep.2.1, htail.2.2.trans hstep.2.2⟩

/-- C4: atomicity on failure. Whenever a business method returns an error,
    the receiver is exactly the input account — every precondition and
    validation check of the Go bodies precedes the first field write, so a
    failing call modifies no field. -/
theorem failing_method_is_noop (ua : UserAccount) (m : MethodCall) (now : Int)
    (e : DomainErr) (h : (applyMethod ua m now).2 = some e) :
    (applyMethod ua m now).1 = ua := by
  rcases applyMethod_unchanged_or_ok ua m now with h1 | h1
  · exact h1
  · rw [h1] at h
    exact Option.noConfusion h

/-- Witness for `failing_method_is_noop`: a second `Delete` on the deleted
    sample account fails and leaves it untouched. -/
theorem failing_method_is_noop_witness :
    (applyMethod deletedAccount (.delete "adm".toList) 9).1 = deletedAccount :=
  failing_method_is_noop deletedAccount (.delete "adm".toList) 9 .alreadyDeleted (by decide)

/-- C3: `Deleted` is terminal. On an account whose status is `Deleted`,
    every status-changing method fails with its specific error and returns
    the receiver with no field modified (in particular the status is still
    `Deleted`); a second `Delete` fails with `AlreadyDeleted`. -/
theorem deleted_is_terminal (ua : UserAccount) (now : Int)
    (v a r : List Char) (dt : DisabilityType)
    (h : ua.status = .deleted) :
    ua.Verify v now = (ua, some .notPendingVerification) ∧
    ua.SelfVerify now = (ua, some .notPendingVerification) ∧
    ua.Activate a now = (ua, some .notDisabled) ∧
    ua.Disable a dt r now = (ua, some .cannotDisableDeleted) ∧
    ua.SetInactive a r now = (ua, some .cannotDisableDeleted) ∧
    ua.Suspend a r now = (ua, some .cannotDisableDeleted) ∧
    ua.Block a r now = (ua, some .cannotDisableDeleted) ∧
    ua.SetExpired a r now = (ua, some .cannotDisableDeleted) ∧
    ua.SetViolation a r now = (ua, some .cannotDisableDeleted) ∧
    ua.DisableManually a r now = (ua, some .cannotDisableDeleted) ∧
    ua.Reactivate a now = (ua, some .notDisabledCannotReactivate) ∧
    ua.Delete a now = (ua, some .alreadyDeleted) := by
  simp [UserAccount.Verify, UserAccount.SelfVerify, UserAccount.Activate, UserAccount.Disable,
    UserAccount.SetInactive, UserAccount.Suspend, UserAccount.Block, UserAccount.SetExpired,
    UserAccount.SetViolation, UserAccount.DisableManually, UserAccount.Reactivate,
    UserAccount.Delete, h]

/-- Witness for `deleted_is_terminal` on the deleted sample account. -/
theorem deleted_is_terminal_witness :
    deletedAccount.Delete "adm".toList 9 = (deletedAccount, some .alreadyDeleted) :=
  (deleted_is_terminal deletedAccount 9 "v".toList "adm".toList "r".toList .manual
    (by decide)).2.2.2.2.2.2.2.2.2.2.2

/-- C7: `CanLogin` is true exactly when the status is `Active`, the account
    is verified, and it is not locked; `IsLocked` is true exactly when
    `lockedUntil` is present and `now` is strictly before it. Both are pure
    functions of the account and the current time: they return a Bool and
    leave the receiver untouched. -/
theorem canLogin_isLocked_spec (ua : UserAccount) (now : Int) :
    (ua.CanLogin now = true ↔
      (ua.status = .active ∧ ua.isVerified = true ∧ ua.IsLocked now = false)) ∧
    (ua.IsLocked now = true ↔ ∃ t, ua.lockedUntil = some t ∧ now < t) := by
  have hI : ua.IsLocked now = true ↔ ∃ t, ua.lockedUntil = some t ∧ now < t := by
    unfold UserAccount.IsLocked
    rcases hL : ua.lockedUntil with _ | t <;> simp
  refine ⟨?_, hI⟩
  unfold UserAccount.CanLogin UserAccount.IsLocked
  by_cases hs : ua.status = UserAccountStatus.active
  · by_cases hv : ua.isVerified = true
    · rcases hL : ua.lockedUntil with _ | t
      · simp [hs, hv]
      · by_cases ht : now < t <;> simp [hs, hv, ht]
    · simp [hs, hv]
  · simp [hs]

/-- C10: `ID`, `CreatedAt`, and `RegisteredBy` are set by the constructor
    and never modified again — after any sequence of business-method calls
    (successful or failing) they still hold the constructor's values. -/
theorem identity_fields_set_once (idv username email hash : List Char)
    (t : UserAccountType) (rb : List Char) (t0 : Int) (ua0 : UserAccount)
    (h : NewUserAccountWithHash idv username email hash t rb t0 = .ok ua0)
    (calls : List (MethodCall × Int)) :
    (runCalls ua0 calls).id = idv ∧
    (runCalls ua0 calls).createdAt = t0 ∧
    (runCalls ua0 calls).registeredBy = some rb := by
  have h0 : ua0.id = idv ∧ ua0.createdAt = t0 ∧ ua0.registeredBy = some rb := by
    unfold NewUserAccountWithHash at h
    repeat' split at h
    all_goals first
      | exact Except.noConfusion h
      | (rw [Except.ok.injEq] at h; subst h; simp)
  have hf := runCalls_identity_frame calls ua0
  exact ⟨hf.1.trans h0.1, hf.2.1.trans h0.2.1, hf.2.2.trans h0.2.2⟩

/-- Witness for `identity_fields_set_once`: the sample construction
    followed by a verification still carries id, creation time and
    registering actor of the constructor call. -/
theorem identity_fields_set_once_witness :
    (runCalls sampleAccount [(.verify "boss".toList, 1)]).id = "id1".toList ∧
    (runCalls sampleAccount [(.verify "boss".toList, 1)]).createdAt = 0 ∧
    (runCalls sampleAccount [(.verify "boss".toList, 1)]).registeredBy =
      some "admin".toList :=
  identity_fields_set_once "id1".toList "user_1".toList "user@example.com".toList
    "hash1".toList .internal "admin".toList 0 sampleAccount (by decide)
    [(.verify "boss".toList, 1)]

/-- C9: the login-tracking methods check no status. For any account —
    deleted or disabled included — `RecordSuccessfulLogin` succeeds when
    the ip is non-blank, `RecordFailedLogin` succeeds when additionally
    `maxAttempts > 0`, and `UnlockAccount` always succeeds, each mutating
    its login fields and `updatedAt`. -/
theorem login_tracking_ignores_status (ua : UserAccount) (ip : List Char)
    (n d now : Int) (hip : isBlank ip = false) (hn : 0 < n) :
    ua.RecordSuccessfulLogin ip now =
      ({ ua with
          lastLoginAt := some now
          lastLoginIP := some ip
          failedLoginAttempts := 0
          lockedUntil := none
          updatedAt := now }, none) ∧
    (ua.RecordFailedLogin ip n d now).2 = none ∧
    (ua.RecordFailedLogin ip n d now).1.failedLoginAttempts =
      ua.failedLoginAttempts + 1 ∧
    (ua.RecordFailedLogin ip n d now).1.updatedAt = now ∧
    (ua.RecordFailedLogin ip n d now).1.lastFailedLoginAttempt = some now ∧
    (ua.RecordFailedLogin ip n d now).1.lastFailedLoginIP = some ip ∧
    ua.UnlockAccount now =
      { ua with failedLoginAttempts := 0, lockedUntil := none, updatedAt := now } := by
  unfold UserAccount.RecordSuccessfulLogin UserAccount.RecordFailedLogin
    UserAccount.UnlockAccount
  simp only [hip, Bool.false_eq_true, if_false, not_le.mpr hn, if_neg]
  split_ifs <;> simp_all [not_le.mpr hn]

/-- Witness for `login_tracking_ignores_status` on the deleted sample
    account. -/
theorem login_tracking_ignores_status_witness :
    (deletedAccount.RecordFailedLogin "1.2.3.4".toList 3 60 7).2 = none ∧
    (deletedAccount.RecordFailedLogin "1.2.3.4".toList 3 60 7).1.updatedAt = 7 :=
  ⟨(login_tracking_ignores_status deletedAccount "1.2.3.4".toList 3 60 7
      (by decide) (by decide)).2.1,
   (login_tracking_ignores_status deletedAccount "1.2.3.4".toList 3 60 7
      (by decide) (by decide)).2.2.2.1⟩

/-- C2 counterexample: `UpdatePasswordHash` performs no same-value check.
    On the active sample account (whose stored hash is `hash1` and whose
    `updatedAt` is 0), updating to the identical hash succeeds (`none`
    error) and bumps `updatedAt` — the claim says it must fail with a
    `NoChange` error and leave the account unchanged. -/
theorem updatePasswordHash_same_value_succeeds :
    activeAccount.passwordHash = ⟨"hash1".toList⟩ ∧
    activeAccount.updatedAt = 0 ∧
    (activeAccount.UpdatePasswordHash "hash1".toList 5).2 = none ∧
    (activeAccount.UpdatePasswordHash "hash1".toList 5).1.passwordHash =
      activeAccount.passwordHash ∧
    (activeAccount.UpdatePasswordHash "hash1".toList 5).1.updatedAt = 5 := by
  decide

/-- C2 amended: `UpdateUsername` and `UpdateEmail` reject an update to the
    current value with a no-change error, leaving every field (including
    `updatedAt`) untouched; `UpdatePasswordHash` has no such check — for
    any non-blank hash, equal to the stored one or not, it replaces the
    field and bumps `updatedAt`. -/
theorem update_nochange_spec (ua : UserAccount) (s : List Char) (now : Int) :
    (∀ u, NewUsername s = .ok u → ua.username = u →
      ua.UpdateUsername s now = (ua, some .sameUsername)) ∧
    (∀ e, NewEmail s = .ok e → ua.email = e →
      ua.UpdateEmail s now = (ua, some .sameEmail)) ∧
    (isBlank s = false →
      ua.UpdatePasswordHash s now =
        ({ ua with passwordHash := ⟨s⟩, updatedAt := now }, none)) := by
  refine ⟨?_, ?_, ?_⟩
  · intro u hu heq
    unfold UserAccount.UpdateUsername
    rw [hu]
    simp [Username.Equals, heq]
  · intro e he heq
    unfold UserAccount.UpdateEmail
    rw [he]
    simp [Email.Equals, heq]
  · intro hs
    unfold UserAccount.UpdatePasswordHash
    simp [hs, NewPasswordHash]

/-- Witness for `update_nochange_spec` on the sample account. -/
theorem update_nochange_spec_witness :
    sampleAccount.UpdateUsername "user_1".toList 5 =
      (sampleAccount, some .sameUsername) ∧
    sampleAccount.UpdateEmail "user@example.com".toList 5 =
      (sampleAccount, some .sameEmail) ∧
    sampleAccount.UpdatePasswordHash "hash2".toList 5 =
      ({ sampleAccount with passwordHash := ⟨"hash2".toList⟩, updatedAt := 5 }, none) :=
  ⟨(update_nochange_spec sampleAccount "user_1".toList 5).1
      ⟨"user_1".toList⟩ (by decide) (by decide),
   (update_nochange_spec sampleAccount "user@example.com".toList 5).2.1
      ⟨"user@example.com".toList⟩ (by decide) (by decide),
   (update_nochange_spec sampleAccount "hash2".toList 5).2.2 (by decide)⟩

/-- C8: `NewUsername` succeeds exactly on inputs whose trimmed form has
    byte length 3–30 and consists only of letters, digits and underscore,
    returning that exact normalized string; shorter inputs fail with
    `TooShort`, longer with `TooLong`, and in-range inputs with a bad
    character fail with `InvalidChars`. -/
theorem username_validation_spec (s : List Char) :
    (goLen (trimSpace s) < 3 → NewUsername s = .error .usernameTooShort) ∧
    (30 < goLen (trimSpace s) → NewUsername s = .error .usernameTooLong) ∧
    (3 ≤ goLen (trimSpace s) → goLen (trimSpace s) ≤ 30 →
      (trimSpace s).all usernameChar = false →
      NewUsername s = .error .usernameInvalidChars) ∧
    (3 ≤ goLen (trimSpace s) → goLen (trimSpace s) ≤ 30 →
      (trimSpace s).all usernameChar = true →
      NewUsername s = .ok ⟨trimSpace s⟩ ∧
      Username.Value ⟨trimSpace s⟩ = trimSpace s) := by
  refine ⟨?_, ?_, ?_, ?_⟩
  · intro h1
    simp [NewUsername, h1]
  · intro h1
    have h2 : ¬ goLen (trimSpace s) < 3 := by omega
    simp [NewUsername, h1, h2]
  · intro h1 h2 h3
    have h4 : ¬ goLen (trimSpace s) < 3 := by omega
    have h5 : ¬ 30 < goLen (trimSpace s) := by omega
    simp [NewUsername, usernameMatch, h3, h4, h5]
  · intro h1 h2 h3
    have h4 : ¬ goLen (trimSpace s) < 3 := by omega
    have h5 : ¬ 30 < goLen (trimSpace s) := by omega
    have h6 : trimSpace s ≠ [] := by
      intro he
      rw [he] at h1
      simp [goLen] at h1
    simp [NewUsername, usernameMatch, h3, h4, h5, h6, Username.Value]

/-- Witness for `username_validation_spec`: one concrete input per
    branch of the username validation. -/
theorem username_validation_spec_witness :
    NewUsername " user_1 ".toList = .ok ⟨"user_1".toList⟩ ∧
    NewUsername "ab".toList = .error .usernameTooShort ∧
    NewUsername "a234567890123456789012345678901".toList = .error .usernameTooLong ∧
    NewUsername "us er".toList = .error .usernameInvalidChars :=
  ⟨((username_validation_spec " user_1 ".toList).2.2.2 (by decide) (by decide)
      (by decide)).1,
   (username_validation_spec "ab".toList).1 (by decide),
   (username_validation_spec "a234567890123456789012345678901".toList).2.1 (by decide),
   (username_validation_spec "us er".toList).2.2.1 (by decide) (by decide) (by decide)⟩

/-- Go `RecordFailedLogin` on valid arguments: the closed form used by the
    lockout claims. -/
theorem recordFailedLogin_ok (ua : UserAccount) (ip : List Char) (n d now : Int)
    (hip : isBlank ip = false) (hn : 0 < n) :
    ua.RecordFailedLogin ip n d now =
      (if n ≤ ua.failedLoginAttempts + 1 then
        { ua with
            failedLoginAttempts := ua.failedLoginAttempts + 1
            lastFailedLoginAttempt := some now
            lastFailedLoginIP := some ip
            updatedAt := now
            lockedUntil := some (now + d) }
      else
        { ua with
            failedLoginAttempts := ua.failedLoginAttempts + 1
            lastFailedLoginAttempt := some now
            lastFailedLoginIP := some ip
            updatedAt := now }, none) := by
  unfold UserAccount.RecordFailedLogin
  simp only [hip, Bool.false_eq_true, if_false, not_le.mpr hn, if_neg]
  split_ifs <;> rfl

/-- C5: `RecordFailedLogin` (non-blank ip, positive `maxAttempts`)
    increments the failure counter by exactly one and locks until
    `now + lockDuration` once the count reaches `maxAttempts`. From a
    clean counter with `maxAttempts = 3` and a positive lock duration,
    three failures leave the account locked (`IsLocked` true, `CanLogin`
    false even though it is active and verified), and a subsequent
    `RecordSuccessfulLogin` or `UnlockAccount` resets the counter to 0 and
    clears `lockedUntil`. -/
theorem lockout_after_failed_logins (ua : UserAccount) (ip : List Char)
    (n d t1 t2 t3 t4 : Int)
    (hip : isBlank ip = false) (hn : 0 < n) (hd : 0 < d)
    (hs : ua.status = .active) (hv : ua.isVerified = true)
    (h0 : ua.failedLoginAttempts = 0) :
    (ua.RecordFailedLogin ip n d t1).2 = none ∧
    (ua.RecordFailedLogin ip n d t1).1.failedLoginAttempts =
      ua.failedLoginAttempts + 1 ∧
    (n ≤ ua.failedLoginAttempts + 1 →
      (ua.RecordFailedLogin ip n d t1).1.lockedUntil = some (t1 + d)) ∧
    (ua.failedLoginAttempts + 1 < n →
      (ua.RecordFailedLogin ip n d t1).1.lockedUntil = ua.lockedUntil) ∧
    (((ua.RecordFailedLogin ip 3 d t1).1.RecordFailedLogin ip 3 d
        t2).1.RecordFailedLogin ip 3 d t3).1.failedLoginAttempts = 3 ∧
    (((ua.RecordFailedLogin ip 3 d t1).1.RecordFailedLogin ip 3 d
        t2).1.RecordFailedLogin ip 3 d t3).1.lockedUntil = some (t3 + d) ∧
    (((ua.RecordFailedLogin ip 3 d t1).1.RecordFailedLogin ip 3 d
        t2).1.RecordFailedLogin ip 3 d t3).1.IsLocked t3 = true ∧
    (((ua.RecordFailedLogin ip 3 d t1).1.RecordFailedLogin ip 3 d
        t2).1.RecordFailedLogin ip 3 d t3).1.CanLogin t3 = false ∧
    ((((ua.RecordFailedLogin ip 3 d t1).1.RecordFailedLogin ip 3 d
        t2).1.RecordFailedLogin ip 3 d t3).1.RecordSuccessfulLogin ip
        t4).1.failedLoginAttempts = 0 ∧
    ((((ua.RecordFailedLogin ip 3 d t1).1.RecordFailedLogin ip 3 d
        t2).1.RecordFailedLogin ip 3 d t3).1.RecordSuccessfulLogin ip
        t4).1.lockedUntil = none ∧
    ((((ua.RecordFailedLogin ip 3 d t1).1.RecordFailedLogin ip 3 d
        t2).1.RecordFailedLogin ip 3 d t3).1.UnlockAccount
        t4).failedLoginAttempts = 0 ∧
    ((((ua.RecordFailedLogin ip 3 d t1).1.RecordFailedLogin ip 3 d
        t2).1.RecordFailedLogin ip 3 d t3).1.UnlockAccount
        t4).lockedUntil = none := by
  obtain ⟨f1, f2, f3, f4, f5, f6, f7, f8, f9, f10, f11, f12, f13, f14, f15, f16,
    f17, f18, f19, f20, f21, f22, f23⟩ := ua
  simp only at hs hv h0
  subst hs hv h0
  dsimp only
  refine ⟨?_, ?_, ?_, ?_, ?_⟩
  · rw [recordFailedLogin_ok _ ip n d t1 hip hn]
  · rw [recordFailedLogin_ok _ ip n d t1 hip hn]
    split_ifs <;> rfl
  · intro hle
    rw [recordFailedLogin_ok _ ip n d t1 hip hn, if_pos hle]
  · intro hlt
    have hc : ¬ (n ≤ (0:Int) + 1) := by omega
    rw [recordFailedLogin_ok _ ip n d t1 hip hn]
    dsimp only
    rw [if_neg hc]
  · simp [UserAccount.RecordFailedLogin, UserAccount.RecordSuccessfulLogin,
      UserAccount.UnlockAccount, UserAccount.IsLocked, UserAccount.CanLogin,
      hip, hd]

/-- Witness for `lockout_after_failed_logins`: after three concrete failed
    logins the active sample account is locked and cannot log in. -/
theorem lockout_after_failed_logins_witness :
    (((activeAccount.RecordFailedLogin "1.2.3.4".toList 3 60
        1).1.RecordFailedLogin "1.2.3.4".toList 3 60
        2).1.RecordFailedLogin "1.2.3.4".toList 3 60 3).1.IsLocked 3 = true ∧
    (((activeAccount.RecordFailedLogin "1.2.3.4".toList 3 60
        1).1.RecordFailedLogin "1.2.3.4".toList 3 60
        2).1.RecordFailedLogin "1.2.3.4".toList 3 60 3).1.CanLogin 3 = false :=
  ⟨(lockout_after_failed_logins activeAccount "1.2.3.4".toList 5 60 1 2 3 4
      (by decide) (by decide) (by decide) (by decide) (by decide)
      (by decide)).2.2.2.2.2.2.1,
   (lockout_after_failed_logins activeAccount "1.2.3.4".toList 5 60 1 2 3 4
      (by decide) (by decide) (by decide) (by decide) (by decide)
      (by decide)).2.2.2.2.2.2.2.1⟩

/-- C6 counterexample: with lock duration 0 (an admissible `time.Duration`
    argument), the locking failed login sets `lockedUntil` to the call's
    own `now` — present but NOT strictly after the time it was set, so the
    claimed invariant is not preserved under arbitrary `lockDuration`. -/
theorem zero_lock_duration_sets_nonfuture_lock :
    ({ activeAccount with failedLoginAttempts := 2 } :
        UserAccount).lockedUntil = none ∧
    (({ activeAccount with failedLoginAttempts := 2 } :
        UserAccount).RecordFailedLogin "9.9.9.9".toList 3 0 100).2 = none ∧
    (({ activeAccount with failedLoginAttempts := 2 } :
        UserAccount).RecordFailedLogin "9.9.9.9".toList 3 0 100).1.lockedUntil =
      some 100 ∧
    ¬ ((100:Int) < 100) := by
  decide

/-- C6 amended: with every `lockDuration` argument positive (the claim
    fails for zero or negative durations), each business method preserves
    `failedLoginAttempts ≥ 0`, and any `lockedUntil` it newly sets is
    strictly after the call's `now`. -/
theorem login_security_invariants_preserved (ua : UserAccount) (m : MethodCall)
    (now : Int)
    (hd : ∀ ip n d, m = MethodCall.recordFailedLogin ip n d → 0 < d)
    (hf : 0 ≤ ua.failedLoginAttempts) :
    0 ≤ (applyMethod ua m now).1.failedLoginAttempts ∧
    (∀ v, (applyMethod ua m now).1.lockedUntil = some v →
      (applyMethod ua m now).1.lockedUntil = ua.lockedUntil ∨ now < v) := by
  cases m <;>
    simp only [applyMethod, UserAccount.Verify, UserAccount.SelfVerify, UserAccount.Activate,
      UserAccount.Disable, UserAccount.SetInactive, UserAccount.Suspend, UserAccount.Block,
      UserAccount.SetExpired, UserAccount.SetViolation, UserAccount.DisableManually,
      UserAccount.Reactivate, UserAccount.Delete, UserAccount.UpdateUsername,
      UserAccount.UpdateEmail, UserAccount.UpdatePasswordHash, UserAccount.UpdateType,
      UserAccount.RecordSuccessfulLogin, UserAccount.RecordFailedLogin,
      UserAccount.UnlockAccount, validateAccountType, validateDisabilityType] <;>
    (repeat' split) <;> simp_all <;> try omega

/-- Witness for `login_security_invariants_preserved`: a locking failed
    login with a positive duration on the sample account. -/
theorem login_security_invariants_preserved_witness :
    0 ≤ (applyMethod { activeAccount with failedLoginAttempts := 2 }
        (.recordFailedLogin "9.9.9.9".toList 3 60) 100).1.failedLoginAttempts ∧
    (∀ v, (applyMethod { activeAccount with failedLoginAttempts := 2 }
        (.recordFailedLogin "9.9.9.9".toList 3 60) 100).1.lockedUntil = some v →
      (applyMethod { activeAccount with failedLoginAttempts := 2 }
        (.recordFailedLogin "9.9.9.9".toList 3 60) 100).1.lockedUntil =
        ({ activeAccount with failedLoginAttempts := 2 } :
          UserAccount).lockedUntil ∨ (100:Int) < v) :=
  login_security_invariants_preserved
    { activeAccount with failedLoginAttempts := 2 }
    (.recordFailedLogin "9.9.9.9".toList 3 60) 100
    (by intro ip n d h; injection h with h1 h2 h3; omega) (by decide)

/-- C1 counterexample: an account reachable through the constructor,
    `Verify` and `Suspend` satisfies the invariant, but a successful
    `Delete` on it leaves `disabilityType` set while the status is
    `Deleted`, so the invariant does not survive `Delete` on a disabled
    account. -/
theorem delete_on_disabled_breaks_invariant :
    NewUserAccountWithHash "id1".toList "user_1".toList "user@example.com".toList
      "hash1".toList .internal "admin".toList 0 = .ok sampleAccount ∧
    reachableDisabled.status = .disabled ∧
    statusDisabilityInv reachableDisabled ∧
    (reachableDisabled.Delete "boss".toList 3).2 = none ∧
    (reachableDisabled.Delete "boss".toList 3).1.status = .deleted ∧
    (reachableDisabled.Delete "boss".toList 3).1.disabilityType =
      some .suspended ∧
    ¬ statusDisabilityInv (reachableDisabled.Delete "boss".toList 3).1 := by
  decide

/-- C1 amended: every business method preserves the forward direction
    `status = Disabled → disabilityType present`, and every method call
    other than a `Delete` issued on a currently disabled account preserves
    the full invariant `status = Disabled ↔ disabilityType present`
    (a successful `Delete` on a disabled account keeps `disabilityType`
    while moving the status to `Deleted`, breaking the reverse direction). -/
theorem statusDisability_preservation (ua : UserAccount) (m : MethodCall)
    (now : Int) (hinv : statusDisabilityInv ua) :
    ((applyMethod ua m now).1.status = .disabled →
      (applyMethod ua m now).1.disabilityType.isSome = true) ∧
    ((∀ dl, m = MethodCall.delete dl → ua.status ≠ .disabled) →
      statusDisabilityInv (applyMethod ua m now).1) := by
  unfold statusDisabilityInv at *
  cases m <;>
    simp only [applyMethod, UserAccount.Verify, UserAccount.SelfVerify, UserAccount.Activate,
      UserAccount.Disable, UserAccount.SetInactive, UserAccount.Suspend, UserAccount.Block,
      UserAccount.SetExpired, UserAccount.SetViolation, UserAccount.DisableManually,
      UserAccount.Reactivate, UserAccount.Delete, UserAccount.UpdateUsername,
      UserAccount.UpdateEmail, UserAccount.UpdatePasswordHash, UserAccount.UpdateType,
      UserAccount.RecordSuccessfulLogin, UserAccount.RecordFailedLogin,
      UserAccount.UnlockAccount, validateAccountType, validateDisabilityType] <;>
    (repeat' split) <;> simp_all

/-- Witness for `statusDisability_preservation`: `Activate` on the
    disabled sample account preserves the invariant. -/
theorem statusDisability_preservation_witness :
    statusDisabilityInv
      (applyMethod disabledAccount (.activate "adm".toList) 1).1 :=
  (statusDisability_preservation disabledAccount (.activate "adm".toList) 1
      (by decide)).2 (fun dl h => MethodCall.noConfusion h)

end NewsPortal
